import Mathlib

/-!
Verification development for the ticket-bot in `src/Python/main.py`.

The Python source drives a Discord ticket workflow.  Below we give a shallow
embedding of its core logic: the access policy `can_manage`, the ticket-open
configurator (`TicketOpenView`), the action panel callbacks (close, transcript,
add user, remove user, claim) and the transcript exporter.  Platform calls
(channel creation, permission edits, topic edits, deletion) are passed in as
explicit `Except Forbidden _` results, mirroring the `try/except
discord.Forbidden` structure of the source.  Discord identifiers are `Nat`,
strings are Lean `String`.
-/

/-- A guild member as the source uses it: snowflake id, the ids of the roles
the member holds (`r.id for r in member.roles`), the account name
(`member.name`), the display name (`member.display_name`, unused by the code
but part of the platform object), the discriminator string and the `str()`
rendering used in f-strings. -/
structure Member where
  id : Nat
  roles : List Nat
  name : String
  displayName : String
  discriminator : String
  tag : String
deriving DecidableEq

/-- The `discord.Forbidden` exception raised when the bot lacks platform
permission for a call. -/
inductive Forbidden
  | mk
deriving DecidableEq

/-- Mention rendering `member.mention` = `<@id>`. -/
def Member.mention (m : Member) : String :=
  "<@" ++ toString m.id ++ ">"

/-- Embedding of `can_manage` (main.py lines 73-80): the actor may manage the
ticket when their id equals the panel's opener id, or when `STAFF_ROLE_ID` is
configured and the actor holds a role with that id.  `staff_role_id = none`
models an unset (or empty) `STAFF_ROLE_ID` environment variable. -/
def can_manage (member : Member) (opener_id : Nat) (staff_role_id : Option Nat) : Bool :=
  if member.id = opener_id then true
  else
    match staff_role_id with
    | some sid => if member.roles.any (fun r => r = sid) then true else false
    | none => false

/-- Embedding of the claim button's permission test (main.py line 215):
`if not STAFF_ROLE_ID or not any(r.id == int(STAFF_ROLE_ID) for r in member.roles)`
rejects, so the action is permitted exactly when a staff role is configured and
the actor holds it.  Note the source test does not consult the panel's
`opener_id` at all. -/
def claimPermitted (member : Member) (staff_role_id : Option Nat) : Bool :=
  match staff_role_id with
  | some sid => member.roles.any (fun r => r = sid)
  | none => false

/-- The opener id with which `on_ready` (main.py line 347) re-registers the
persistent panel after a restart: `bot.add_view(TicketPanel(opener_id=0))`. -/
def restored_panel_opener_id : Nat := 0

/-- Result of the Close button callback: the interaction responses sent
(content, ephemeral flag) and whether the channel ended up deleted. -/
structure CloseOutcome where
  messages : List (String × Bool)
  deleted : Bool
deriving DecidableEq

/-- Embedding of `TicketPanel.close` (main.py lines 163-172).  The platform's
answer to `channel.delete` is passed in as `deleteResult`; `channelIsText`
models the `isinstance(interaction.channel, discord.TextChannel)` test. -/
def close_button (actor : Member) (opener_id : Nat) (staff_role_id : Option Nat)
    (channelIsText : Bool) (deleteResult : Except Forbidden Unit) : CloseOutcome :=
  if ¬ can_manage actor opener_id staff_role_id then
    ⟨[("You are not allowed to close this ticket.", true)], false⟩
  else if channelIsText then
    match deleteResult with
    | .ok _ => ⟨[("Closing in 5 seconds…", true)], true⟩
    | .error _ =>
        ⟨[("Closing in 5 seconds…", true),
          ("I lack permission to delete this channel.", true)], false⟩
  else ⟨[("Closing in 5 seconds…", true)], false⟩

/-- Result of the Claim button callback: the responses sent and the channel
topic after the action. -/
structure ClaimOutcome where
  messages : List (String × Bool)
  topic : Option String
deriving DecidableEq

/-- Embedding of `TicketPanel.claim` (main.py lines 213-227).  `topic` is the
channel topic before the action (`none` when unset, read as `""` by the
source's `or ""`), `nowRepr` the rendered current time, and `editResult` the
platform's answer to `channel.edit(topic=...)`; a `Forbidden` there is
swallowed by `except discord.Forbidden: pass`. -/
def claim_button (actor : Member) (staff_role_id : Option Nat) (channelIsText : Bool)
    (topic : Option String) (nowRepr : String) (editResult : Except Forbidden Unit) :
    ClaimOutcome :=
  if ¬ claimPermitted actor staff_role_id then
    ⟨[("Only staff can claim tickets.", true)], topic⟩
  else if channelIsText then
    let t := topic.getD ""
    let claimed_note := "Claimed by " ++ actor.tag ++ " at " ++ nowRepr
    let newTopic := (t ++ " | " ++ claimed_note).take 1024
    match editResult with
    | .ok _ => ⟨[("Ticket claimed by " ++ actor.mention ++ ".", false)], some newTopic⟩
    | .error _ => ⟨[("Ticket claimed by " ++ actor.mention ++ ".", false)], topic⟩
  else ⟨[("Invalid channel.", true)], topic⟩

/-- A `discord.PermissionOverwrite`: each permission is tri-state — granted,
denied, or left neutral (`none`).  Only the fields the source ever sets are
modelled. -/
structure PermissionOverwrite where
  view_channel : Option Bool := none
  send_messages : Option Bool := none
  read_message_history : Option Bool := none
  attach_files : Option Bool := none
  manage_channels : Option Bool := none
  manage_messages : Option Bool := none
deriving DecidableEq

/-- The per-member overwrite map of a channel: member id ↦ overwrite, `none`
meaning no overwrite exists for that member. -/
def OwMap : Type := Nat → Option PermissionOverwrite

/-- The overwrite written by `AddUserView.select_user` (main.py lines 114-117):
`set_permissions(target, view_channel=True, send_messages=True,
read_message_history=True, attach_files=True)`. -/
def addUserGrant : PermissionOverwrite :=
  { view_channel := some true, send_messages := some true,
    read_message_history := some true, attach_files := some true }

/-- The member-keyed part of `build_ticket_overwrites` (main.py lines 53-71):
the opener gets view/send/read-history/attach, the bot (`guild.me`) gets those
plus manage-channels; no other member has an overwrite at creation. -/
def build_ticket_member_overwrites (opener : Member) (botId : Nat) : OwMap :=
  fun x =>
    if x = opener.id then
      some { view_channel := some true, send_messages := some true,
             read_message_history := some true, attach_files := some true }
    else if x = botId then
      some { view_channel := some true, send_messages := some true,
             manage_channels := some true, read_message_history := some true,
             attach_files := some true }
    else none

/-- The `@everyone` overwrite from `build_ticket_overwrites`:
`discord.PermissionOverwrite(view_channel=False)`. -/
def defaultRoleOverwrite : PermissionOverwrite := { view_channel := some false }

/-- The staff-role overwrite from `build_ticket_overwrites`, written when a
staff role is configured. -/
def staffRoleOverwrite : PermissionOverwrite :=
  { view_channel := some true, send_messages := some true,
    read_message_history := some true, manage_messages := some true,
    attach_files := some true }

/-- Result of a participant-selector callback: responses sent and the
channel's member overwrites afterwards. -/
structure SelectOutcome where
  messages : List (String × Bool)
  overwrites : OwMap

/-- Embedding of `AddUserView.select_user` (main.py lines 100-121): authorize
via `can_manage`, require a text channel, resolve the selected user to a guild
member, then write the add grant for them; a `Forbidden` from the platform is
reported and leaves the overwrites unchanged. -/
def addUser_select (actor : Member) (opener_id : Nat) (staff_role_id : Option Nat)
    (channelValid : Bool) (target : Option Member) (ow : OwMap)
    (permResult : Except Forbidden Unit) : SelectOutcome :=
  if ¬ can_manage actor opener_id staff_role_id then
    ⟨[("You are not allowed to manage this ticket.", true)], ow⟩
  else if ¬ channelValid then
    ⟨[("Invalid channel.", true)], ow⟩
  else
    match target with
    | none => ⟨[("User is not in this server.", true)], ow⟩
    | some t =>
      match permResult with
      | .ok _ =>
          ⟨[("Added " ++ t.mention ++ " to this ticket.", true)],
           fun x => if x = t.id then some addUserGrant else ow x⟩
      | .error _ =>
          ⟨[("Missing permission to modify channel permissions.", true)], ow⟩

/-- Embedding of `RemoveUserView.select_user` (main.py lines 138-154): same
guards, then `set_permissions(target, overwrite=None)`, clearing the
overwrite entirely. -/
def removeUser_select (actor : Member) (opener_id : Nat) (staff_role_id : Option Nat)
    (channelValid : Bool) (target : Option Member) (ow : OwMap)
    (permResult : Except Forbidden Unit) : SelectOutcome :=
  if ¬ can_manage actor opener_id staff_role_id then
    ⟨[("You are not allowed to manage this ticket.", true)], ow⟩
  else if ¬ channelValid then
    ⟨[("Invalid channel.", true)], ow⟩
  else
    match target with
    | none => ⟨[("User is not in this server.", true)], ow⟩
    | some t =>
      match permResult with
      | .ok _ =>
          ⟨[("Removed " ++ t.mention ++ " from this ticket.", true)],
           fun x => if x = t.id then none else ow x⟩
      | .error _ =>
          ⟨[("Missing permission to modify channel permissions.", true)], ow⟩

/-- Modelled from the spec: the platform's effective view access for a member,
given the channel's member overwrites, the staff-role overwrite (present when a
staff role is configured on the ticket channel), and the `@everyone` overwrite.
The member's own overwrite wins; otherwise a held role's overwrite; otherwise
the `@everyone` overwrite; otherwise the guild default (view allowed).
Permission resolution itself is Discord behaviour, not code under `src/`. -/
def effective_view (memberOws : OwMap) (staff_role_id : Option Nat)
    (staffOw : Option PermissionOverwrite) (defaultOw : PermissionOverwrite)
    (m : Member) : Bool :=
  match (memberOws m.id).bind (fun o => o.view_channel) with
  | some b => b
  | none =>
    match staff_role_id, staffOw with
    | some sid, some o =>
      if m.roles.any (fun r => r = sid) then
        match o.view_channel with
        | some b => b
        | none => defaultOw.view_channel.getD true
      else defaultOw.view_channel.getD true
    | _, _ => defaultOw.view_channel.getD true

/-- A fixed opener used in concrete evaluations: id 7, no roles. -/
def exOpener : Member := ⟨7, [], "op name", "Op Name", "0", "op name#0"⟩

/-- The preset reason options (main.py lines 19-25). -/
def PRESET_REASONS : List String :=
  ["Billing / Payment", "Technical Issue", "Account / Access",
   "Report a User", "General Question"]

/-- The preset priority options (main.py lines 27-32). -/
def PRESET_PRIORITIES : List String :=
  ["Low", "Normal", "High", "Urgent"]

/-- The mutable state of a `TicketOpenView` session: the two selected fields
(`None` until a selection is made) and the confirm button's disabled flag
(initially `True`, recomputed by `_refresh`). -/
structure OpenSession where
  reason : Option String
  priority : Option String
  confirmDisabled : Bool
deriving DecidableEq

/-- The session as `TicketOpenView.__init__` builds it: both fields unset,
confirm disabled. -/
def initSession : OpenSession := ⟨none, none, true⟩

/-- Python truthiness of an optional string: `None` and `""` are falsy. -/
def truthy : Option String → Bool
  | none => false
  | some s => !(s == "")

/-- Embedding of `TicketOpenView._refresh` (main.py lines 282-287):
`confirm_btn.disabled = not (self.reason and self.priority)`. -/
def refresh (s : OpenSession) : OpenSession :=
  { s with confirmDisabled := !(truthy s.reason && truthy s.priority) }

/-- The selection events a configurator session can receive: `on_reason` and
`on_priority`, each carrying the index of the chosen preset option. -/
inductive OpenEvent
  | selectReason (i : Fin PRESET_REASONS.length)
  | selectPriority (i : Fin PRESET_PRIORITIES.length)

/-- One step of the configurator: `on_reason` / `on_priority` store the chosen
value and call `_refresh` (main.py lines 289-295). -/
def stepEvent (s : OpenSession) : OpenEvent → OpenSession
  | .selectReason i => refresh { s with reason := some (PRESET_REASONS.get i) }
  | .selectPriority i => refresh { s with priority := some (PRESET_PRIORITIES.get i) }

/-- The session reached from the initial one by a list of selection events. -/
def runEvents (evts : List OpenEvent) : OpenSession :=
  evts.foldl stepEvent initSession

/-- Python `str.lower()`, per character. -/
def pyLower (s : String) : String := ⟨s.data.map Char.toLower⟩

/-- Python `str.replace(" ", "-")`, per character. -/
def pyReplaceSpaceHyphen (s : String) : String :=
  ⟨s.data.map (fun c => if c = ' ' then '-' else c)⟩

/-- `safe_name` from `on_confirm` (main.py line 309):
`self.opener.name.lower().replace(" ", "-")` — note it uses the account
username `name`, not the display name. -/
def safe_name (opener : Member) : String :=
  pyReplaceSpaceHyphen (pyLower opener.name)

/-- `channel_name` from `on_confirm` (main.py line 310):
`f"ticket-{safe_name}-{discriminator if discriminator != '0' else id}"`. -/
def channel_name (opener : Member) : String :=
  "ticket-" ++ safe_name opener ++ "-" ++
    (if opener.discriminator ≠ "0" then opener.discriminator else toString opener.id)

/-- The channel name as claim C9's words state it: the opener's display name,
lowercased with every space replaced by a hyphen, followed by the
disambiguating suffix (discriminator, or account id when it is "0").  Written
from the claim, to be compared with `channel_name` from the source. -/
def claimedC9ChannelName (opener : Member) : String :=
  pyReplaceSpaceHyphen (pyLower opener.displayName) ++ "-" ++
    (if opener.discriminator ≠ "0" then opener.discriminator else toString opener.id)

/-- A created ticket channel: its name and the category it was created under. -/
structure Channel where
  name : String
  category : String
deriving DecidableEq

/-- How a run of `on_confirm` ends: refused at the field guard, aborted by an
uncaught platform exception, or a created channel. -/
inductive ConfirmResult
  | refused
  | raised (e : Forbidden)
  | success (ch : Channel)
deriving DecidableEq

/-- Observable outcome of `on_confirm`: the final result, every channel
created during the run, and every response shown to the invoking user
(content, ephemeral flag). -/
structure ConfirmOutcome where
  result : ConfirmResult
  createdChannels : List Channel
  userMessages : List (String × Bool)
deriving DecidableEq

/-- Embedding of `TicketOpenView.on_confirm` (main.py lines 300-339).  The
platform's answers to `get_or_create_category` and `create_text_channel` are
passed in as `catResult` and `createResult`.  Neither call is wrapped in a
`try/except` in the source, so a `Forbidden` from either escapes the callback:
no response is sent to the user and no channel is created. -/
def on_confirm (s : OpenSession) (opener : Member)
    (catResult : Except Forbidden String) (createResult : Except Forbidden Unit) :
    ConfirmOutcome :=
  if ¬ (truthy s.reason && truthy s.priority) then
    ⟨.refused, [], [("Please select both fields first.", true)]⟩
  else
    match catResult with
    | .error e => ⟨.raised e, [], []⟩
    | .ok cat =>
      match createResult with
      | .error e => ⟨.raised e, [], []⟩
      | .ok _ =>
        let ch : Channel := ⟨channel_name opener, cat⟩
        ⟨.success ch, [ch],
         [("Your ticket has been created: #" ++ ch.name, true)]⟩

/-- Python `content.replace("\n", "\\n")`: each newline character inside the
content is replaced by the two characters backslash and `n`. -/
def escapeNL (s : String) : String :=
  ⟨(s.data.map (fun c => if c = '\n' then ['\\', 'n'] else [c])).flatten⟩

/-- Python `sep.join(parts)`. -/
def joinWith (sep : String) : List String → String
  | [] => ""
  | [x] => x
  | x :: y :: ys => x ++ sep ++ joinWith sep (y :: ys)

/-- One message of a channel's history as the transcript reads it: the
`str()` of the author, the author id, the creation time (seconds), the text
content and the attachment URLs. -/
structure TMessage where
  authorStr : String
  authorId : Nat
  createdAt : Nat
  content : String
  attachments : List String
deriving DecidableEq

/-- Rendering of `fmt_ts` (main.py lines 44-45): the source formats the UTC
datetime with `strftime("%Y-%m-%d %H:%M:%S UTC")`; here the timestamp is kept
as seconds and rendered as its decimal digits followed by " UTC" — an
injective rendering standing in for the calendar formatting, which is library
behaviour with no bearing on the claims. -/
def fmtTs (t : Nat) : String := toString t ++ " UTC"

/-- One transcript record, from the history loop of `TicketPanel.transcript`
(main.py lines 185-192): `[time] author (id): content | Attachments: u, v`
with content newlines escaped and the attachment part present only when the
message has attachments. -/
def formatLine (m : TMessage) : String :=
  let author := m.authorStr ++ " (" ++ toString m.authorId ++ ")"
  let time_str := fmtTs m.createdAt
  let content := escapeNL m.content
  let attach_info :=
    if m.attachments.isEmpty then ""
    else " | Attachments: " ++ joinWith ", " m.attachments
  "[" ++ time_str ++ "] " ++ author ++ ": " ++ content ++ attach_info

/-- The transcript artifact (main.py line 194):
`"\n".join(lines) if lines else "No messages."`, where `lines` holds one
formatted record per history message in the order the history was delivered
(`oldest_first=True`, i.e. chronological). -/
def transcript (hist : List TMessage) : String :=
  let lines := hist.map formatLine
  if lines.isEmpty then "No messages." else joinWith "\n" lines

/-- Splitting a character list at newline characters (the inverse view used to
read the artifact back as records). -/
def splitCharsNL : List Char → List (List Char)
  | [] => [[]]
  | c :: rest =>
    match splitCharsNL rest with
    | [] => [[]]
    | l :: ls => if c = '\n' then [] :: l :: ls else (c :: l) :: ls

/-- Splitting a string at newline characters. -/
def splitNL (s : String) : List String :=
  (splitCharsNL s.data).map (fun l => (⟨l⟩ : String))

/-- A string free of newline characters, i.e. a single line. -/
abbrev noNL (s : String) : Prop := ∀ c ∈ s.data, c ≠ '\n'

/-- A concrete two-message history with increasing timestamps; the first
message's content contains a literal newline. -/
def exHist : List TMessage :=
  [⟨"alice", 1, 10, "hello\nworld", []⟩,
   ⟨"bob", 2, 20, "hi", ["http://cdn.example/a.png"]⟩]

lemma can_manage_iff (m : Member) (o : Nat) (sr : Option Nat) :
    can_manage m o sr = true ↔ (m.id = o ∨ ∃ s, sr = some s ∧ s ∈ m.roles) := by
  unfold can_manage
  by_cases h : m.id = o
  · simp [h]
  · simp only [if_neg h]
    cases sr with
    | none => simp [h]
    | some sid =>
      constructor
      · intro hb
        by_cases ha : m.roles.any (fun r => r = sid) = true
        · rcases List.any_eq_true.mp ha with ⟨r, hr, he⟩
          have her : r = sid := by simpa using he
          exact Or.inr ⟨sid, rfl, her ▸ hr⟩
        · simp [ha] at hb
      · rintro (hc | ⟨s, hs, hmem⟩)
        · exact absurd hc h
        · have : m.roles.any (fun r => r = sid) = true :=
            List.any_eq_true.mpr ⟨s, hmem, by simp [Option.some.injEq] at hs; simp [hs]⟩
          simp [this]

lemma can_manage_eq_false (m : Member) (o : Nat) (sr : Option Nat)
    (hop : m.id ≠ o) (hst : ∀ s, sr = some s → s ∉ m.roles) :
    can_manage m o sr = false := by
  cases h : can_manage m o sr with
  | false => rfl
  | true =>
    rcases (can_manage_iff m o sr).mp h with hid | ⟨s, hs, hmem⟩
    · exact absurd hid hop
    · exact absurd hmem (hst s hs)

/-- C1: `can_manage` is true iff the actor's id equals the bound opener id, or
the staff role id is configured and the actor holds a role with that id; false
in every other case. -/
theorem access_policy_truth_table (m : Member) (o : Nat) (sr : Option Nat) :
    can_manage m o sr = true ↔ (m.id = o ∨ ∃ s, sr = some s ∧ s ∈ m.roles) :=
  can_manage_iff m o sr

/-- C8: a panel restored after restart is bound to the sentinel opener id 0, so
any actor whose id is not 0 is authorized iff the staff role is configured and
held; the identity branch can never match. -/
theorem restored_panel_staff_only (m : Member) (sr : Option Nat) (h : m.id ≠ 0) :
    can_manage m restored_panel_opener_id sr = true ↔ ∃ s, sr = some s ∧ s ∈ m.roles := by
  rw [can_manage_iff]
  constructor
  · rintro (hid | hs)
    · exact absurd hid h
    · exact hs
  · exact Or.inr

/-- Witness for C8 at a concrete actor: id 3 (≠ 0) holding role 9, staff role
configured to 9, is authorized on a restored panel. -/
theorem restored_panel_staff_only_witness :
    (3 : Nat) ≠ 0 ∧ can_manage ⟨3, [9], "u", "u", "0", "u"⟩ restored_panel_opener_id (some 9) = true :=
  ⟨by decide,
   (restored_panel_staff_only ⟨3, [9], "u", "u", "0", "u"⟩ (some 9) (by decide)).mpr
     ⟨9, rfl, by decide⟩⟩

/-- C6 counterexample: the claim check does not special-case the opener.  An
actor with id 5 who holds the configured staff role 9 is permitted to claim a
ticket whose panel opener id is 5 (their own ticket), refuting "for the opener
it is rejected even when the opener holds the staff role". -/
theorem claim_opener_staff_allowed :
    ¬ (∀ (m : Member) (sr : Option Nat) (opener_id : Nat),
        claimPermitted m sr = true → m.id ≠ opener_id) :=
  fun h => absurd (h ⟨5, [9], "op", "op", "0", "op"⟩ (some 9) 5 (by decide)) (by decide)

/-- C6 amended: the claim action is permitted exactly to actors holding the
configured staff role; the opener id plays no part, so an opener who holds the
staff role may claim their own ticket. -/
theorem claim_staff_only (m : Member) (sr : Option Nat) :
    claimPermitted m sr = true ↔ ∃ s, sr = some s ∧ s ∈ m.roles := by
  unfold claimPermitted
  cases sr with
  | none => simp
  | some sid =>
    rw [List.any_eq_true]
    constructor
    · rintro ⟨r, hr, he⟩
      have her : r = sid := by simpa using he
      exact ⟨sid, rfl, her ▸ hr⟩
    · rintro ⟨s, hs, hmem⟩
      exact ⟨s, hmem, by simp [Option.some.injEq] at hs; simp [hs]⟩

lemma sessionInv_step (s : OpenSession) (e : OpenEvent)
    (h2 : ∀ v, s.reason = some v → v ∈ PRESET_REASONS)
    (h3 : ∀ v, s.priority = some v → v ∈ PRESET_PRIORITIES) :
    (stepEvent s e).confirmDisabled
        = !(truthy (stepEvent s e).reason && truthy (stepEvent s e).priority) ∧
    (∀ v, (stepEvent s e).reason = some v → v ∈ PRESET_REASONS) ∧
    (∀ v, (stepEvent s e).priority = some v → v ∈ PRESET_PRIORITIES) := by
  cases e with
  | selectReason i =>
    refine ⟨rfl, ?_, ?_⟩
    · intro v hv
      simp only [stepEvent, refresh] at hv
      have : v = PRESET_REASONS.get i := by simpa using hv.symm
      exact this ▸ PRESET_REASONS.get_mem i.1 i.2
    · intro v hv
      exact h3 v hv
  | selectPriority i =>
    refine ⟨rfl, ?_, ?_⟩
    · intro v hv
      exact h2 v hv
    · intro v hv
      simp only [stepEvent, refresh] at hv
      have : v = PRESET_PRIORITIES.get i := by simpa using hv.symm
      exact this ▸ PRESET_PRIORITIES.get_mem i.1 i.2

lemma sessionInv_fold : ∀ (l : List OpenEvent) (s : OpenSession),
    s.confirmDisabled = !(truthy s.reason && truthy s.priority) →
    (∀ v, s.reason = some v → v ∈ PRESET_REASONS) →
    (∀ v, s.priority = some v → v ∈ PRESET_PRIORITIES) →
    (l.foldl stepEvent s).confirmDisabled
        = !(truthy (l.foldl stepEvent s).reason && truthy (l.foldl stepEvent s).priority) ∧
    (∀ v, (l.foldl stepEvent s).reason = some v → v ∈ PRESET_REASONS) ∧
    (∀ v, (l.foldl stepEvent s).priority = some v → v ∈ PRESET_PRIORITIES) := by
  intro l
  induction l with
  | nil => exact fun s h1 h2 h3 => ⟨h1, h2, h3⟩
  | cons e t ih =>
    intro s _ h2 h3
    obtain ⟨g1, g2, g3⟩ := sessionInv_step s e h2 h3
    exact ih (stepEvent s e) g1 g2 g3

lemma session_inv (evts : List OpenEvent) :
    (runEvents evts).confirmDisabled
        = !(truthy (runEvents evts).reason && truthy (runEvents evts).priority) ∧
    (∀ v, (runEvents evts).reason = some v → v ∈ PRESET_REASONS) ∧
    (∀ v, (runEvents evts).priority = some v → v ∈ PRESET_PRIORITIES) :=
  sessionInv_fold evts initSession rfl
    (fun v hv => by simp [initSession] at hv)
    (fun v hv => by simp [initSession] at hv)

lemma reason_truthy_of_ne_none (evts : List OpenEvent)
    (hr : (runEvents evts).reason ≠ none) : truthy (runEvents evts).reason = true := by
  obtain ⟨v, hv⟩ := Option.ne_none_iff_exists'.mp hr
  have hmem := (session_inv evts).2.1 v hv
  have hne : ∀ x ∈ PRESET_REASONS, x ≠ "" := by decide
  rw [hv]
  simp [truthy, hne v hmem]

lemma priority_truthy_of_ne_none (evts : List OpenEvent)
    (hp : (runEvents evts).priority ≠ none) : truthy (runEvents evts).priority = true := by
  obtain ⟨v, hv⟩ := Option.ne_none_iff_exists'.mp hp
  have hmem := (session_inv evts).2.2 v hv
  have hne : ∀ x ∈ PRESET_PRIORITIES, x ≠ "" := by decide
  rw [hv]
  simp [truthy, hne v hmem]

/-- C2: in any session reachable from the initial configurator state, if the
reason or the priority field is unset the confirm button is disabled and an
invoked confirm is refused with no channel created, whatever the platform
would have answered; once both fields are set, a confirm whose platform calls
succeed creates exactly one channel. -/
theorem ticket_confirm_gating (evts : List OpenEvent) (opener : Member) :
    (((runEvents evts).reason = none ∨ (runEvents evts).priority = none) →
      (runEvents evts).confirmDisabled = true ∧
      ∀ catResult createResult,
        (on_confirm (runEvents evts) opener catResult createResult).result = .refused ∧
        (on_confirm (runEvents evts) opener catResult createResult).createdChannels = []) ∧
    ((runEvents evts).reason ≠ none → (runEvents evts).priority ≠ none →
      ∀ cat, (on_confirm (runEvents evts) opener (.ok cat) (.ok ())).createdChannels.length
        = 1) := by
  obtain ⟨h1, _, _⟩ := session_inv evts
  constructor
  · intro hun
    have hf : (truthy (runEvents evts).reason && truthy (runEvents evts).priority) = false := by
      rcases hun with h | h <;> simp [h, truthy]
    refine ⟨by rw [h1, hf]; rfl, ?_⟩
    intro catResult createResult
    unfold on_confirm
    rw [hf]
    exact ⟨rfl, rfl⟩
  · intro hr hp cat
    have htr := reason_truthy_of_ne_none evts hr
    have htp := priority_truthy_of_ne_none evts hp
    unfold on_confirm
    rw [htr, htp]
    rfl

/-- Witness for C2: the never-touched session has confirm disabled and a
forced confirm refused; after choosing reason 1 and priority 2 the confirm
creates exactly one channel. -/
theorem ticket_confirm_gating_witness :
    (runEvents []).confirmDisabled = true ∧
    (on_confirm (runEvents []) exOpener (.ok "Tickets") (.ok ())).result = .refused ∧
    (on_confirm
        (runEvents [OpenEvent.selectReason ⟨1, by decide⟩,
                    OpenEvent.selectPriority ⟨2, by decide⟩])
        exOpener (.ok "Tickets") (.ok ())).createdChannels.length = 1 :=
  ⟨((ticket_confirm_gating [] exOpener).1 (Or.inl rfl)).1,
   (((ticket_confirm_gating [] exOpener).1 (Or.inl rfl)).2 (.ok "Tickets") (.ok ())).1,
   (ticket_confirm_gating
        [OpenEvent.selectReason ⟨1, by decide⟩, OpenEvent.selectPriority ⟨2, by decide⟩]
        exOpener).2 (by decide) (by decide) "Tickets"⟩

/-- C3 failing input, evaluated: with both fields selected, a `Forbidden` from
`create_text_channel` escapes `on_confirm` — no response is sent to the user
(in particular no error message), no channel is created, and the session's
run ends in the uncaught exception rather than a rendered error. -/
theorem confirm_forbidden_unreported :
    on_confirm
        (runEvents [OpenEvent.selectReason ⟨1, by decide⟩,
                    OpenEvent.selectPriority ⟨2, by decide⟩])
        exOpener (.ok "Tickets") (.error .mk)
      = ⟨.raised .mk, [], []⟩ := by decide

/-- C9 counterexample: for an opener with account name "Bob Smith", display
name "Bobby Helper", discriminator "0" and id 42, the channel created on
confirm is named "ticket-bob-smith-42", not the "bobby-helper-42" the claim's
display-name derivation yields. -/
theorem channel_name_not_display_name :
    (on_confirm
        (runEvents [OpenEvent.selectReason ⟨0, by decide⟩,
                    OpenEvent.selectPriority ⟨0, by decide⟩])
        ⟨42, [], "Bob Smith", "Bobby Helper", "0", "Bob Smith#0"⟩
        (.ok "Tickets") (.ok ())).createdChannels.map Channel.name
      ≠ [claimedC9ChannelName ⟨42, [], "Bob Smith", "Bobby Helper", "0", "Bob Smith#0"⟩] := by
  decide

/-- C9 amended: the created channel's name is the literal "ticket-" followed
by the opener's account username lowercased with spaces replaced by hyphens,
followed by the numeric discriminator, or the account id when the
discriminator is "0". -/
theorem channel_name_formula (evts : List OpenEvent) (opener : Member) (cat : String)
    (hr : (runEvents evts).reason ≠ none) (hp : (runEvents evts).priority ≠ none) :
    (on_confirm (runEvents evts) opener (.ok cat) (.ok ())).createdChannels
      = [⟨"ticket-" ++ pyReplaceSpaceHyphen (pyLower opener.name) ++ "-" ++
            (if opener.discriminator ≠ "0" then opener.discriminator
             else toString opener.id), cat⟩] := by
  have htr := reason_truthy_of_ne_none evts hr
  have htp := priority_truthy_of_ne_none evts hp
  unfold on_confirm
  rw [htr, htp]
  rfl

/-- Witness for C9 amended: opener "op name" (discriminator "0", id 7) gets
channel "ticket-op-name-7". -/
theorem channel_name_formula_witness :
    (runEvents [OpenEvent.selectReason ⟨1, by decide⟩,
                OpenEvent.selectPriority ⟨2, by decide⟩]).reason ≠ none ∧
    (on_confirm
        (runEvents [OpenEvent.selectReason ⟨1, by decide⟩,
                    OpenEvent.selectPriority ⟨2, by decide⟩])
        exOpener (.ok "Tickets") (.ok ())).createdChannels
      = [⟨"ticket-op-name-7", "Tickets"⟩] :=
  ⟨by decide,
   by
    have h := channel_name_formula
      [OpenEvent.selectReason ⟨1, by decide⟩, OpenEvent.selectPriority ⟨2, by decide⟩]
      exOpener "Tickets" (by decide) (by decide)
    simpa using h⟩

/-- C5 counterexample: the claim fails for a member who already has an
overwrite before the add.  On a freshly created ticket channel the opener
(id 7) has the creation-time grant, so their effective view access is true;
after add-user(opener) followed immediately by remove-user(opener) the
overwrite is cleared entirely, the `@everyone` deny applies, and the opener's
effective access is false — not the pre-add state — and the overwrite map
differs from the pre-add one at id 7. -/
theorem add_remove_not_restoring :
    effective_view (build_ticket_member_overwrites exOpener 99) none none
        defaultRoleOverwrite exOpener = true ∧
    effective_view
        (removeUser_select exOpener 7 none true (some exOpener)
          (addUser_select exOpener 7 none true (some exOpener)
            (build_ticket_member_overwrites exOpener 99) (.ok ())).overwrites
          (.ok ())).overwrites none none defaultRoleOverwrite exOpener = false ∧
    (removeUser_select exOpener 7 none true (some exOpener)
        (addUser_select exOpener 7 none true (some exOpener)
          (build_ticket_member_overwrites exOpener 99) (.ok ())).overwrites
        (.ok ())).overwrites 7
      ≠ build_ticket_member_overwrites exOpener 99 7 := by
  refine ⟨by decide, by decide, by decide⟩

/-- C5 amended: for a guild member with no pre-existing overwrite on the
channel, add-user followed immediately by remove-user (authorized, valid
channel, platform accepting both edits) restores the overwrite map exactly,
and in particular leaves no overwrite for that member. -/
theorem add_remove_roundtrip (actor : Member) (opener_id : Nat) (sr : Option Nat)
    (target : Member) (ow : OwMap)
    (hcm : can_manage actor opener_id sr = true)
    (hpre : ow target.id = none) :
    (removeUser_select actor opener_id sr true (some target)
        (addUser_select actor opener_id sr true (some target) ow (.ok ())).overwrites
        (.ok ())).overwrites = ow ∧
    (removeUser_select actor opener_id sr true (some target)
        (addUser_select actor opener_id sr true (some target) ow (.ok ())).overwrites
        (.ok ())).overwrites target.id = none := by
  unfold removeUser_select addUser_select
  simp only [hcm, not_true_eq_false, Bool.not_eq_true, ite_false, if_neg,
    not_false_eq_true, ite_true, if_pos]
  constructor
  · funext x
    by_cases hx : x = target.id
    · simp [hx, hpre.symm]
    · simp [hx]
  · simp

/-- Witness for C5 amended: staff member 8 adds then removes member 11 (which
has no overwrite at creation time) on the opener-7 ticket channel; the
overwrite map returns to the creation-time map and member 11 ends with no
overwrite. -/
theorem add_remove_roundtrip_witness :
    can_manage ⟨8, [9], "s", "s", "0", "s"⟩ 7 (some 9) = true ∧
    build_ticket_member_overwrites exOpener 99 11 = none ∧
    (removeUser_select ⟨8, [9], "s", "s", "0", "s"⟩ 7 (some 9) true
        (some ⟨11, [], "t", "t", "0", "t"⟩)
        (addUser_select ⟨8, [9], "s", "s", "0", "s"⟩ 7 (some 9) true
          (some ⟨11, [], "t", "t", "0", "t"⟩)
          (build_ticket_member_overwrites exOpener 99) (.ok ())).overwrites
        (.ok ())).overwrites = build_ticket_member_overwrites exOpener 99 ∧
    (removeUser_select ⟨8, [9], "s", "s", "0", "s"⟩ 7 (some 9) true
        (some ⟨11, [], "t", "t", "0", "t"⟩)
        (addUser_select ⟨8, [9], "s", "s", "0", "s"⟩ 7 (some 9) true
          (some ⟨11, [], "t", "t", "0", "t"⟩)
          (build_ticket_member_overwrites exOpener 99) (.ok ())).overwrites
        (.ok ())).overwrites 11 = none :=
  ⟨by decide, by decide,
   (add_remove_roundtrip ⟨8, [9], "s", "s", "0", "s"⟩ 7 (some 9)
      ⟨11, [], "t", "t", "0", "t"⟩ (build_ticket_member_overwrites exOpener 99)
      (by decide) (by decide)).1,
   (add_remove_roundtrip ⟨8, [9], "s", "s", "0", "s"⟩ 7 (some 9)
      ⟨11, [], "t", "t", "0", "t"⟩ (build_ticket_member_overwrites exOpener 99)
      (by decide) (by decide)).2⟩

/-- C7: a close invoked by an actor who is neither the opener nor a holder of
the configured staff role is answered with a single ephemeral rejection
message and the channel is not deleted, regardless of channel kind or what the
platform would have answered to a deletion. -/
theorem close_unauthorized_rejected (actor : Member) (opener_id : Nat) (sr : Option Nat)
    (channelIsText : Bool) (deleteResult : Except Forbidden Unit)
    (hop : actor.id ≠ opener_id) (hst : ∀ s, sr = some s → s ∉ actor.roles) :
    close_button actor opener_id sr channelIsText deleteResult
      = ⟨[("You are not allowed to close this ticket.", true)], false⟩ := by
  unfold close_button
  rw [can_manage_eq_false actor opener_id sr hop hst]
  simp

/-- Witness for C7: actor id 4 with no roles, opener id 7, staff role 9, in a
text channel whose deletion would have succeeded — the close is rejected
ephemerally and the channel survives. -/
theorem close_unauthorized_rejected_witness :
    (4 : Nat) ≠ 7 ∧
    close_button ⟨4, [], "x", "x", "0", "x"⟩ 7 (some 9) true (.ok ())
      = ⟨[("You are not allowed to close this ticket.", true)], false⟩ :=
  ⟨by decide,
   close_unauthorized_rejected ⟨4, [], "x", "x", "0", "x"⟩ 7 (some 9) true (.ok ())
     (by decide) (by intro s hs; cases hs; decide)⟩

/-- C10: when a staff member claims in a text channel and the topic edit is
rejected by the platform with `Forbidden`, the error is swallowed — the only
response is the public (non-ephemeral) "Ticket claimed by …" announcement —
and the topic is left unchanged, so no claim annotation is recorded. -/
theorem claim_forbidden_swallowed (actor : Member) (sr : Option Nat)
    (topic : Option String) (nowRepr : String)
    (hperm : claimPermitted actor sr = true) :
    claim_button actor sr true topic nowRepr (.error .mk)
      = ⟨[("Ticket claimed by " ++ actor.mention ++ ".", false)], topic⟩ := by
  unfold claim_button
  rw [hperm]
  simp

/-- Witness for C10: staff member id 8 holding role 9 claims while the topic
edit is forbidden; the public announcement is still sent and the topic keeps
its prior value. -/
theorem claim_forbidden_swallowed_witness :
    claimPermitted ⟨8, [9], "s", "s", "0", "s"⟩ (some 9) = true ∧
    claim_button ⟨8, [9], "s", "s", "0", "s"⟩ (some 9) true (some "old topic") "t0" (.error .mk)
      = ⟨[("Ticket claimed by <@8>.", false)], some "old topic"⟩ :=
  ⟨by decide,
   claim_forbidden_swallowed ⟨8, [9], "s", "s", "0", "s"⟩ (some 9) (some "old topic") "t0"
     (by decide)⟩

lemma digitChar_ne_newline (d : Nat) : Nat.digitChar d ≠ '\n' := by
  by_cases h : d < 16
  · interval_cases d <;> decide
  · unfold Nat.digitChar
    rw [if_neg (by omega : ¬ d = 0), if_neg (by omega : ¬ d = 1),
        if_neg (by omega : ¬ d = 2), if_neg (by omega : ¬ d = 3),
        if_neg (by omega : ¬ d = 4), if_neg (by omega : ¬ d = 5),
        if_neg (by omega : ¬ d = 6), if_neg (by omega : ¬ d = 7),
        if_neg (by omega : ¬ d = 8), if_neg (by omega : ¬ d = 9),
        if_neg (by omega : ¬ d = 10), if_neg (by omega : ¬ d = 11),
        if_neg (by omega : ¬ d = 12), if_neg (by omega : ¬ d = 13),
        if_neg (by omega : ¬ d = 14), if_neg (by omega : ¬ d = 15)]
    decide

lemma toDigitsCore_ne_newline : ∀ (fuel n : Nat) (ds : List Char),
    (∀ c ∈ ds, c ≠ '\n') → ∀ c ∈ Nat.toDigitsCore 10 fuel n ds, c ≠ '\n' := by
  intro fuel
  induction fuel with
  | zero => exact fun n ds h c hc => h c hc
  | succ f ih =>
    intro n ds h c hc
    have hc' : c ∈ (if n / 10 = 0 then Nat.digitChar (n % 10) :: ds
                    else Nat.toDigitsCore 10 f (n / 10) (Nat.digitChar (n % 10) :: ds)) := hc
    by_cases hn : n / 10 = 0
    · rw [if_pos hn] at hc'
      rcases List.mem_cons.mp hc' with h1 | h2
      · exact h1 ▸ digitChar_ne_newline _
      · exact h c h2
    · rw [if_neg hn] at hc'
      refine ih (n / 10) (Nat.digitChar (n % 10) :: ds) ?_ c hc'
      intro x hx
      rcases List.mem_cons.mp hx with h1 | h2
      · exact h1 ▸ digitChar_ne_newline _
      · exact h x h2

lemma noNL_toString_nat (n : Nat) : noNL (toString n) := fun c hc =>
  toDigitsCore_ne_newline (n + 1) n [] (fun x hx => absurd hx (List.not_mem_nil x)) c hc

lemma noNL_append (a b : String) (ha : noNL a) (hb : noNL b) : noNL (a ++ b) := by
  intro c hc
  rw [String.data_append] at hc
  rcases List.mem_append.mp hc with h | h
  · exact ha c h
  · exact hb c h

lemma noNL_escapeNL (s : String) : noNL (escapeNL s) := by
  intro c hc
  have hd : (escapeNL s).data
      = (s.data.map (fun c => if c = '\n' then ['\\', 'n'] else [c])).flatten := rfl
  rw [hd] at hc
  rcases List.mem_flatten.mp hc with ⟨l, hl, hcl⟩
  rcases List.mem_map.mp hl with ⟨x, _, hxl⟩
  subst hxl
  by_cases hx : x = '\n'
  · rw [if_pos hx] at hcl
    rcases List.mem_cons.mp hcl with h1 | h2
    · exact h1 ▸ (by decide)
    · have : c = 'n' := by simpa using h2
      exact this ▸ (by decide)
  · rw [if_neg hx] at hcl
    have : c = x := by simpa using hcl
    exact this ▸ hx

lemma noNL_joinWith (sep : String) (hsep : noNL sep) :
    ∀ (l : List String), (∀ x ∈ l, noNL x) → noNL (joinWith sep l) := by
  intro l
  induction l with
  | nil => exact fun _ c hc => absurd hc (List.not_mem_nil c)
  | cons x xs ih =>
    intro h
    cases xs with
    | nil => exact h x (by simp)
    | cons y ys =>
      exact noNL_append _ _ (noNL_append _ _ (h x (by simp)) hsep)
        (ih (fun z hz => h z (List.mem_cons_of_mem x hz)))

lemma noNL_formatLine (m : TMessage) (ha : noNL m.authorStr)
    (hatt : ∀ u ∈ m.attachments, noNL u) : noNL (formatLine m) := by
  have h1 : noNL (fmtTs m.createdAt) :=
    noNL_append _ _ (noNL_toString_nat _) (by decide)
  have h2 : noNL (m.authorStr ++ " (" ++ toString m.authorId ++ ")") :=
    noNL_append _ _ (noNL_append _ _ (noNL_append _ _ ha (by decide))
      (noNL_toString_nat _)) (by decide)
  have h3 : noNL (escapeNL m.content) := noNL_escapeNL _
  have h4 : noNL (if m.attachments.isEmpty then ""
      else " | Attachments: " ++ joinWith ", " m.attachments) := by
    split
    · exact fun c hc => absurd hc (List.not_mem_nil c)
    · exact noNL_append _ _ (by decide) (noNL_joinWith ", " (by decide) _ hatt)
  show noNL ("[" ++ fmtTs m.createdAt ++ "] "
      ++ (m.authorStr ++ " (" ++ toString m.authorId ++ ")") ++ ": "
      ++ escapeNL m.content
      ++ (if m.attachments.isEmpty then ""
          else " | Attachments: " ++ joinWith ", " m.attachments))
  exact noNL_append _ _
    (noNL_append _ _
      (noNL_append _ _
        (noNL_append _ _
          (noNL_append _ _ (noNL_append _ _ (by decide) h1) (by decide))
          h2)
        (by decide))
      h3)
    h4

lemma splitCharsNL_ne_nil : ∀ (l : List Char), splitCharsNL l ≠ [] := by
  intro l
  cases l with
  | nil => simp [splitCharsNL]
  | cons c t =>
    show (match splitCharsNL t with
          | [] => [[]]
          | a :: as => if c = '\n' then [] :: a :: as else (c :: a) :: as) ≠ []
    cases splitCharsNL t with
    | nil => simp
    | cons a as =>
      by_cases hc : c = '\n'
      · simp [hc]
      · simp [hc]

lemma splitCharsNL_of_noNL : ∀ (l : List Char), (∀ c ∈ l, c ≠ '\n') →
    splitCharsNL l = [l] := by
  intro l
  induction l with
  | nil => intro _; rfl
  | cons c t ih =>
    intro h
    have ht := ih (fun x hx => h x (List.mem_cons_of_mem c hx))
    have hc : c ≠ '\n' := h c (List.mem_cons_self c t)
    show (match splitCharsNL t with
          | [] => [[]]
          | a :: as => if c = '\n' then [] :: a :: as else (c :: a) :: as) = [c :: t]
    rw [ht]
    simp [hc]

lemma splitCharsNL_append : ∀ (l t : List Char), (∀ c ∈ l, c ≠ '\n') →
    splitCharsNL (l ++ '\n' :: t) = l :: splitCharsNL t := by
  intro l
  induction l with
  | nil =>
    intro t _
    show (match splitCharsNL t with
          | [] => [[]]
          | a :: as => if '\n' = '\n' then [] :: a :: as else ('\n' :: a) :: as)
        = [] :: splitCharsNL t
    cases hst : splitCharsNL t with
    | nil => exact absurd hst (splitCharsNL_ne_nil t)
    | cons a as => simp
  | cons c l' ih =>
    intro t h
    have hc : c ≠ '\n' := h c (List.mem_cons_self c l')
    have ih' := ih t (fun x hx => h x (List.mem_cons_of_mem c hx))
    show (match splitCharsNL (l' ++ '\n' :: t) with
          | [] => [[]]
          | a :: as => if c = '\n' then [] :: a :: as else (c :: a) :: as)
        = (c :: l') :: splitCharsNL t
    rw [ih']
    simp [hc]

lemma splitNL_joinWith : ∀ (ls : List String), ls ≠ [] → (∀ s ∈ ls, noNL s) →
    splitNL (joinWith "\n" ls) = ls := by
  intro ls
  induction ls with
  | nil => exact fun h _ => absurd rfl h
  | cons x xs ih =>
    intro _ h
    cases xs with
    | nil =>
      show (splitCharsNL x.data).map (fun l => (⟨l⟩ : String)) = [x]
      rw [splitCharsNL_of_noNL x.data (h x (by simp))]
      rfl
    | cons y ys =>
      have hys := ih (by simp) (fun s hs => h s (List.mem_cons_of_mem x hs))
      show splitNL (x ++ "\n" ++ joinWith "\n" (y :: ys)) = x :: y :: ys
      unfold splitNL
      have hdata : (x ++ "\n" ++ joinWith "\n" (y :: ys)).data
          = x.data ++ '\n' :: (joinWith "\n" (y :: ys)).data := by
        rw [String.data_append, String.data_append, List.append_assoc]
        rfl
      rw [hdata, splitCharsNL_append x.data _ (h x (by simp))]
      have hys' : (splitCharsNL (joinWith "\n" (y :: ys)).data).map
          (fun l => (⟨l⟩ : String)) = y :: ys := hys
      rw [List.map_cons, hys']

/-- C4: for a message history delivered in chronological order (strictly
increasing timestamps) whose author renderings and attachment URLs are free of
newlines, the transcript artifact, split at its newlines, is exactly the list
of per-message records in the same order — each message occupies one line,
with content newlines escaped and attachment URLs appended — and an empty
history yields the literal "No messages." placeholder. -/
theorem transcript_chronological (hist : List TMessage)
    (hts : List.Pairwise (fun a b => a.createdAt < b.createdAt) hist)
    (hnl : ∀ m ∈ hist, noNL m.authorStr ∧ ∀ u ∈ m.attachments, noNL u) :
    (hist = [] → transcript hist = "No messages.") ∧
    (hist ≠ [] → splitNL (transcript hist) = hist.map formatLine) := by
  constructor
  · intro h
    subst h
    rfl
  · intro h
    have hlines : hist.map formatLine ≠ [] := by simpa using h
    have hie : (hist.map formatLine).isEmpty = false := by
      cases hist with
      | nil => exact absurd rfl h
      | cons a t => rfl
    have htr : transcript hist = joinWith "\n" (hist.map formatLine) := by
      show (if (hist.map formatLine).isEmpty = true then "No messages."
            else joinWith "\n" (hist.map formatLine)) = joinWith "\n" (hist.map formatLine)
      rw [hie]
      rfl
    rw [htr]
    apply splitNL_joinWith _ hlines
    intro s hs
    rcases List.mem_map.mp hs with ⟨m, hm, rfl⟩
    exact noNL_formatLine m (hnl m hm).1 (hnl m hm).2

/-- Witness for C4: the two-message history (timestamps 10 < 20, a newline in
the first content) splits back into its two records in order, and the empty
history yields the placeholder. -/
theorem transcript_chronological_witness :
    List.Pairwise (fun a b => a.createdAt < b.createdAt) exHist ∧
    splitNL (transcript exHist) = exHist.map formatLine ∧
    transcript [] = "No messages." :=
  ⟨by decide,
   (transcript_chronological exHist (by decide) (by decide)).2 (by decide),
   (transcript_chronological [] (by decide) (by decide)).1 rfl⟩
